import Mathlib

/-!
Verification of the leader-timed bundle submission client (`src/cli/back/main.rs`)
against its natural-language specification.

The Rust source is shallowly embedded below: the hardcoded configuration of
`main`, the leader-wait loop (lines 157..174), the bundle construction and
signing (lines 176..212), the tip-account selection (line 177), the u64 slot
subtraction (lines 107 and 167), and the pending-transaction stream loop
`print_packet_stream` (lines 254..284).  Network calls are modelled by passing
their responses as explicit inputs; a Rust expression that aborts the process
(out-of-bounds index, unwrap of an error) is modelled by `Option.none`.
-/

namespace SearcherClient

/-! ## Slot arithmetic (u64) -/

/-- `2 ^ 64`, the modulus of Rust's `u64`. -/
def U64MOD : Nat := 2 ^ 64

/-- Wrapping `u64` subtraction, as performed by `a - b` on `u64` operands in
release builds.  Operands are u64 values, i.e. `< U64MOD`. -/
def u64Sub (a b : Nat) : Nat := (a + U64MOD - b) % U64MOD

/-- `SlotInfo`: the relay's answer to `get_next_scheduled_leader`
(`NextScheduledLeaderRequest`), with the fields the source reads. -/
structure SlotInfo where
  currentSlot : Nat
  nextLeaderSlot : Nat
  nextLeaderIdentity : String
  nextLeaderRegion : String
deriving DecidableEq, Repr

/-- `next_leader.next_leader_slot - next_leader.current_slot`, the unguarded
u64 subtraction computed at `main.rs:167` (`num_slots`) and again at
`main.rs:107` inside `print_next_leader_info`. -/
def slotsUntil (si : SlotInfo) : Nat := u64Sub si.nextLeaderSlot si.currentSlot

/-! ## Hardcoded configuration of `main` (`main.rs:118..126, 178, 180..182`) -/

def numTxs : Nat := 2

def lamports : Nat := 1000

def rpcUrl : String := "https://api.mainnet-beta.solana.com"

def blockEngineUrl : String := "https://amsterdam.mainnet.block-engine.jito.wtf"

def keypairPath : String := "./jito-keypair.json"

def payerPath : String := "./my-keypair.json"

def regions : List String := ["amsterdam"]

def message : String := "jito bundle 0: hello world"

def recipientPubkey : String := "GKxpQ3ZSMNSbCDs1RrqhxuTTUfn8xx6faDzTss38mkw3"

def lamportsToSend : Nat := 1000

/-- The configuration values `main` runs with.  `main` takes the process
argument vector as an ambient input but never reads it: the `clap` `Args`
struct is declared (`main.rs:31..94`) and `Args::parse()` is never called, so
every field below is a literal from `main.rs:118..126, 178`. -/
structure Config where
  numTxs : Nat
  lamports : Nat
  rpcUrl : String
  blockEngineUrl : String
  keypairPath : String
  payer : String
  regions : List String
  message : String
deriving DecidableEq, Repr

/-- The configuration `main` uses, as a function of the process argument
vector `argv` (which the source never inspects). -/
def mainConfig (_argv : List String) : Config :=
  { numTxs := numTxs
    lamports := lamports
    rpcUrl := rpcUrl
    blockEngineUrl := blockEngineUrl
    keypairPath := keypairPath
    payer := payerPath
    regions := regions
    message := message }

/-! ## Bundle construction (`main.rs:176..212`) -/

/-- A `system_instruction::transfer` instruction: the only instruction kind
the live code puts in the submitted transaction (`main.rs:190..196`). -/
structure Instruction where
  source : String
  dest : String
  lamports : Nat
deriving DecidableEq, Repr

/-- A signed transaction as built at `main.rs:198..202`:
`Transaction::new_with_payer(&[...], Some(&payer))` then
`transaction.sign(&[&payer_keypair], blockhash)`. -/
structure Transaction where
  instructions : List Instruction
  feePayer : String
  recentBlockhash : String
deriving DecidableEq, Repr

/-- `tip_accounts[0]` at `main.rs:177`: unguarded indexing of the first
element of the `get_tip_accounts` response.  `none` models the out-of-bounds
abort of the process on an empty list. -/
def selectTipAccount (accounts : List String) : Option String := accounts[0]?

/-- The bundle `main` hands to `send_bundle_with_confirmation`
(`main.rs:176..212, 243..251`): one tip account is selected, a single
transaction is built carrying the payment transfer (`transfer_instruction`,
`main.rs:190`) and the tip transfer (`jito_tip_instruction`, `main.rs:196`),
signed with the fetched blockhash, and the singleton list
`vec![wire_transaction]` (`main.rs:211`) is submitted.  `none` models the
abort on an empty tip-account list. -/
def buildMainBundle (payerPub blockhash : String) (tipAccounts : List String) :
    Option (List Transaction) :=
  match selectTipAccount tipAccounts with
  | none => none
  | some tipAccount =>
      let transferInstruction : Instruction :=
        { source := payerPub, dest := recipientPubkey, lamports := lamportsToSend }
      let jitoTipInstruction : Instruction :=
        { source := payerPub, dest := tipAccount, lamports := lamports }
      let transaction : Transaction :=
        { instructions := [transferInstruction, jitoTipInstruction]
          feePayer := payerPub
          recentBlockhash := blockhash }
      some [transaction]

/-- Bundle construction as a function of the requested transaction count.
In the source the requested count (`num_txs`, `main.rs:118`) never flows into
the construction at `main.rs:196..212` (the multi-transaction construction at
`main.rs:229..241` is commented out), so the parameter is ignored. -/
def buildBundleWithCount (_txCount : Nat) (payerPub blockhash : String)
    (tipAccounts : List String) : Option (List Transaction) :=
  buildMainBundle payerPub blockhash tipAccounts

/-- Number of tip-paying transfers in a transaction: instructions whose
destination is one of the relay-approved tip accounts. -/
def countTipTransfers (tipAccounts : List String) (tx : Transaction) : Nat :=
  (tx.instructions.filter fun i => tipAccounts.contains i.dest).length

/-! ## The workflow trace of `main` (`main.rs:157..251`) -/

/-- Observable steps of `main` after subscribing: leader-scheduler probes
(`main.rs:160`), the fixed 500ms sleep (`main.rs:173`), the blockhash fetch
(`main.rs:185`), the bundle build+sign (`main.rs:190..212`), and the
submission (`main.rs:243`). -/
inductive Event where
  | probe (si : SlotInfo)
  | sleepMs (n : Nat)
  | fetchBlockhash
  | buildBundle
  | submitBundle
deriving DecidableEq, Repr

/-- One iteration of the wait loop body (`main.rs:159..174`): a probe call
followed by `sleep(Duration::from_millis(500))`. -/
def pollEvents (si : SlotInfo) : List Event := [Event.probe si, Event.sleepMs 500]

/-- The leader-wait loop (`main.rs:158..174`), driven by the list of probe
responses the relay returns: it iterates while `num_slots <= 2` is false and
exits after the first response with `num_slots <= 2` (the sleep also runs on
that final iteration).  `none` means every supplied response was above the
threshold, i.e. the loop is still polling. -/
def leaderWait : List SlotInfo → Option (List Event)
  | [] => none
  | si :: rest =>
      if slotsUntil si ≤ 2 then some (pollEvents si)
      else (leaderWait rest).map (fun evs => pollEvents si ++ evs)

/-- The trace of `main` from the wait loop to the submission
(`main.rs:157..251`): only after the wait loop exits does `main` fetch the
blockhash, build the bundle and submit it. -/
def mainTrace (probes : List SlotInfo) : Option (List Event) :=
  (leaderWait probes).map
    (fun evs => evs ++ [Event.fetchBlockhash, Event.buildBundle, Event.submitBundle])

/-! ## The pending-transaction stream loop (`main.rs:254..284`) -/

/-- A decoded transaction as produced by `versioned_tx_from_packet`. -/
structure VersionedTransaction where
  signatures : List String
deriving DecidableEq, Repr

/-- One observed outcome of `timeout(Duration::from_secs(5),
pending_transactions.next())` (`main.rs:260`): a notification carrying raw
packets (`Ok(Some(Ok(_)))`), a stream error (`Ok(Some(Err(_)))`), stream
closure (`Ok(None)`), or the 5-second timeout elapsing (`Err(_)`). -/
inductive StreamEvent (P : Type) where
  | notification (packets : List P)
  | streamError
  | streamClosed
  | timeoutElapsed
deriving DecidableEq, Repr

/-- Observable actions of the loop body: logging a decoded transaction
(`main.rs:268`), the two break-branch log lines (`main.rs:272, 276`), and the
`print_next_leader_info` probe call on timeout (`main.rs:280`). -/
inductive Action where
  | logTx (tx : VersionedTransaction)
  | logStreamError
  | logStreamClosed
  | probeLeader
deriving DecidableEq, Repr

/-- How the loop left off after consuming the supplied events: it broke on a
stream error (`main.rs:271..274`), broke on stream closure (`main.rs:275..278`),
or is still running (no break branch was taken). -/
inductive LoopExit where
  | streamError
  | streamClosed
  | running
deriving DecidableEq, Repr

/-- The loop of `print_packet_stream` (`main.rs:259..283`) over a finite list
of observed stream events, parameterised by the packet decoder
(`versioned_tx_from_packet`): notifications are decoded with `filter_map`
(undecodable packets dropped) and each decoded transaction logged; a stream
error or closure logs and breaks; a timeout performs one
`print_next_leader_info` call and continues. -/
def printPacketStream {P : Type} (decode : P → Option VersionedTransaction) :
    List (StreamEvent P) → List Action × LoopExit
  | [] => ([], LoopExit.running)
  | StreamEvent.notification packets :: rest =>
      let txs := packets.filterMap decode
      let result := printPacketStream decode rest
      (txs.map Action.logTx ++ result.1, result.2)
  | StreamEvent.streamError :: _ => ([Action.logStreamError], LoopExit.streamError)
  | StreamEvent.streamClosed :: _ => ([Action.logStreamClosed], LoopExit.streamClosed)
  | StreamEvent.timeoutElapsed :: rest =>
      let result := printPacketStream decode rest
      (Action.probeLeader :: result.1, result.2)

/-! ## Theorems -/

/-- C1.  The claim says the bundle handed to the submitter contains exactly
`num_txs` signed transactions for every `num_txs` in `1..=5`.  The code runs
with `num_txs = 2` (`main.rs:118`) yet always submits a singleton bundle
(`vec![wire_transaction]`, `main.rs:211`): the bundle length is 1, not
`numTxs`.  The multi-transaction construction honouring `num_txs`
(`main.rs:229..241`) is commented out. -/
theorem num_txs_not_honored :
    numTxs = 2 ∧
    (buildMainBundle "payer" "blockhash" ["tipacct"]).map List.length = some 1 ∧
    (buildMainBundle "payer" "blockhash" ["tipacct"]).map List.length ≠ some numTxs := by
  refine ⟨rfl, rfl, ?_⟩
  decide

/-- C2 counterexample.  The claim says bundle building fails (with
`InvalidBundleSize`) for a requested transaction count of 0 or above 5 and
that no bundle is submitted then.  In the code the requested count never
reaches the construction: with count 0 and with count 6 the build succeeds
and produces a bundle, which is submitted. -/
theorem bundle_size_unvalidated_cex :
    (buildBundleWithCount 0 "payer" "blockhash" ["tipacct"]).isSome = true ∧
    (buildBundleWithCount 6 "payer" "blockhash" ["tipacct"]).isSome = true := by
  decide

/-- C2 amended.  Bundle building performs no size validation at all: the
result is independent of the requested transaction count (including 0 and 6),
and whenever the tip-account list is non-empty it succeeds with a bundle of
exactly one transaction; no `InvalidBundleSize` failure exists in the code. -/
theorem bundle_build_ignores_count (n m : Nat) (payerPub blockhash : String)
    (tipAccounts : List String) :
    buildBundleWithCount n payerPub blockhash tipAccounts =
      buildBundleWithCount m payerPub blockhash tipAccounts ∧
    (tipAccounts ≠ [] →
      (buildBundleWithCount n payerPub blockhash tipAccounts).map List.length = some 1) := by
  refine ⟨rfl, fun h => ?_⟩
  match tipAccounts, h with
  | a :: rest, _ => simp [buildBundleWithCount, buildMainBundle, selectTipAccount]

/-- C2 witness. -/
theorem bundle_build_ignores_count_witness :
    buildBundleWithCount 0 "payer" "blockhash" ["tipacct"] =
      buildBundleWithCount 6 "payer" "blockhash" ["tipacct"] ∧
    (buildBundleWithCount 0 "payer" "blockhash" ["tipacct"]).map List.length = some 1 :=
  ⟨(bundle_build_ignores_count 0 6 "payer" "blockhash" ["tipacct"]).1,
   (bundle_build_ignores_count 0 6 "payer" "blockhash" ["tipacct"]).2 (by decide)⟩

/-- Helper: while every probe response is above the threshold, the wait loop
never exits. -/
lemma leaderWait_eq_none (probes : List SlotInfo)
    (h : ∀ sj ∈ probes, 2 < slotsUntil sj) : leaderWait probes = none := by
  induction probes with
  | nil => rfl
  | cons si rest ih =>
      have hsi : ¬ slotsUntil si ≤ 2 := by
        have := h si (List.mem_cons_self si rest)
        omega
      have hrest := ih fun sj hj => h sj (List.mem_cons_of_mem _ hj)
      simp [leaderWait, hsi, hrest]

/-- Helper: the wait loop exits at the first probe response at or below the
threshold, having performed one probe+sleep pair per response seen. -/
lemma leaderWait_first_le (pre : List SlotInfo) (si : SlotInfo) (post : List SlotInfo)
    (hpre : ∀ sj ∈ pre, 2 < slotsUntil sj) (hsi : slotsUntil si ≤ 2) :
    leaderWait (pre ++ si :: post) = some (pre.flatMap pollEvents ++ pollEvents si) := by
  induction pre with
  | nil => simp [leaderWait, hsi]
  | cons sj rest ih =>
      have hj : ¬ slotsUntil sj ≤ 2 := by
        have := hpre sj (List.mem_cons_self sj rest)
        omega
      have hrest := ih fun s hs => hpre s (List.mem_cons_of_mem _ hs)
      simp [leaderWait, hj, hrest, List.flatMap_cons, List.append_assoc]

/-- C4.  The workflow steps are strictly ordered: as long as every probe
reports more than 2 slots until the next leader, `main` keeps looping (probe,
sleep 500ms, probe, ...) and never fetches a blockhash, builds or submits;
once a probe reports at most 2 slots, the trace is exactly the above-threshold
probe+sleep pairs, then that probe (and its sleep), and only then the
blockhash fetch, the bundle build, and the submission, in that order. -/
theorem leader_gated_submission (pre : List SlotInfo) (si : SlotInfo)
    (post : List SlotInfo) (hpre : ∀ sj ∈ pre, 2 < slotsUntil sj)
    (hsi : slotsUntil si ≤ 2) :
    mainTrace pre = none ∧
    mainTrace (pre ++ si :: post) =
      some (pre.flatMap pollEvents ++ pollEvents si ++
        [Event.fetchBlockhash, Event.buildBundle, Event.submitBundle]) := by
  constructor
  · simp [mainTrace, leaderWait_eq_none pre hpre]
  · simp [mainTrace, leaderWait_first_le pre si post hpre hsi]

/-- C4 witness: the spec's end-to-end scenario.  A probe with
`current=100, next=110` (10 slots away) keeps the loop polling; once a probe
reports `current=100, next=101` (1 slot away), the workflow proceeds to
fetch, build and submit. -/
theorem leader_gated_submission_witness :
    mainTrace [{ currentSlot := 100, nextLeaderSlot := 110,
                 nextLeaderIdentity := "leader", nextLeaderRegion := "amsterdam" }] = none ∧
    mainTrace [{ currentSlot := 100, nextLeaderSlot := 110,
                 nextLeaderIdentity := "leader", nextLeaderRegion := "amsterdam" },
               { currentSlot := 100, nextLeaderSlot := 101,
                 nextLeaderIdentity := "leader", nextLeaderRegion := "amsterdam" }] =
      some ([{ currentSlot := 100, nextLeaderSlot := 110,
               nextLeaderIdentity := "leader", nextLeaderRegion := "amsterdam" }].flatMap
              pollEvents ++
            pollEvents { currentSlot := 100, nextLeaderSlot := 101,
                         nextLeaderIdentity := "leader", nextLeaderRegion := "amsterdam" } ++
            [Event.fetchBlockhash, Event.buildBundle, Event.submitBundle]) := by
  have h := leader_gated_submission
    [{ currentSlot := 100, nextLeaderSlot := 110,
       nextLeaderIdentity := "leader", nextLeaderRegion := "amsterdam" }]
    { currentSlot := 100, nextLeaderSlot := 101,
      nextLeaderIdentity := "leader", nextLeaderRegion := "amsterdam" }
    [] (by intro sj hj; fin_cases hj; decide) (by decide)
  exact ⟨h.1, h.2⟩

/-- Helper: the events of the wait loop are only probes and sleeps; in
particular no blockhash fetch happens during the wait. -/
lemma fetch_not_mem_leaderWait (probes : List SlotInfo) (evs : List Event)
    (h : leaderWait probes = some evs) : Event.fetchBlockhash ∉ evs := by
  induction probes generalizing evs with
  | nil => simp [leaderWait] at h
  | cons si rest ih =>
      by_cases hsi : slotsUntil si ≤ 2
      · simp [leaderWait, hsi] at h
        subst h
        simp [pollEvents]
      · simp [leaderWait, hsi] at h
        obtain ⟨evs0, h0, rfl⟩ := h
        simp [pollEvents]
        exact ih evs0 h0

/-- C5.  Whenever the tip-account list returned by the relay is non-empty
(and does not contain the hardcoded payment recipient), the submitted bundle
exists and every transaction in it is stamped with the one fetched blockhash
and carries exactly one tip-paying transfer whose destination is a member of
the relay's tip-account list; moreover every complete workflow trace fetches
the recency token exactly once. -/
theorem bundle_blockhash_tip_invariant (payerPub blockhash : String)
    (tipAccounts : List String) (hne : tipAccounts ≠ [])
    (hrec : tipAccounts.contains recipientPubkey = false) :
    (∃ bundle, buildMainBundle payerPub blockhash tipAccounts = some bundle ∧
      ∀ tx ∈ bundle, tx.recentBlockhash = blockhash ∧
        countTipTransfers tipAccounts tx = 1) ∧
    (∀ probes tr, mainTrace probes = some tr →
      tr.count Event.fetchBlockhash = 1) := by
  constructor
  · match tipAccounts, hne, hrec with
    | a :: rest, _, hrec =>
        refine ⟨[Transaction.mk [Instruction.mk payerPub recipientPubkey lamportsToSend,
              Instruction.mk payerPub a lamports] payerPub blockhash], ?_, ?_⟩
        · simp [buildMainBundle, selectTipAccount]
        · intro tx htx
          simp at htx
          subst htx
          refine ⟨rfl, ?_⟩
          simp at hrec
          simp [countTipTransfers, List.filter, List.contains_cons, hrec.1, hrec.2]
  · intro probes tr htr
    simp [mainTrace] at htr
    obtain ⟨evs, hevs, rfl⟩ := htr
    have hnm := fetch_not_mem_leaderWait probes evs hevs
    rw [List.count_append, List.count_eq_zero.mpr hnm]
    decide

/-- C5 witness. -/
theorem bundle_blockhash_tip_invariant_witness :
    (∃ bundle, buildMainBundle "payer" "blockhash" ["tipacct"] = some bundle ∧
      ∀ tx ∈ bundle, tx.recentBlockhash = "blockhash" ∧
        countTipTransfers ["tipacct"] tx = 1) ∧
    (∀ probes tr, mainTrace probes = some tr →
      tr.count Event.fetchBlockhash = 1) :=
  bundle_blockhash_tip_invariant "payer" "blockhash" ["tipacct"]
    (by decide) (by decide)

/-- C3.  `main` never parses its command line: the configuration it runs with
is the same for every argument vector, and equals the hardcoded literals of
`main.rs:118..126, 178`. -/
theorem config_independent_of_argv (argv1 argv2 : List String) :
    mainConfig argv1 = mainConfig argv2 ∧
    mainConfig argv1 =
      { numTxs := 2
        lamports := 1000
        rpcUrl := "https://api.mainnet-beta.solana.com"
        blockEngineUrl := "https://amsterdam.mainnet.block-engine.jito.wtf"
        keypairPath := "./jito-keypair.json"
        payer := "./my-keypair.json"
        regions := ["amsterdam"]
        message := "jito bundle 0: hello world" } :=
  ⟨rfl, rfl⟩

/-- C9.  For every `SlotInfo` with `next_leader_slot ≥ current_slot` (and
both fields genuine u64 values), the unguarded u64 subtraction
`next_leader_slot - current_slot` (`main.rs:107` and `main.rs:167`) equals
the exact mathematical difference: no wrap-around occurs. -/
theorem slots_until_exact (si : SlotInfo)
    (h1 : si.currentSlot ≤ si.nextLeaderSlot) (h2 : si.nextLeaderSlot < U64MOD) :
    slotsUntil si = si.nextLeaderSlot - si.currentSlot := by
  unfold slotsUntil u64Sub
  have hle : si.currentSlot ≤ si.nextLeaderSlot + U64MOD := by omega
  have heq : si.nextLeaderSlot + U64MOD - si.currentSlot =
      U64MOD + (si.nextLeaderSlot - si.currentSlot) := by omega
  rw [heq, Nat.add_mod_left]
  exact Nat.mod_eq_of_lt (by omega)

/-- C9 witness. -/
theorem slots_until_exact_witness :
    slotsUntil { currentSlot := 100, nextLeaderSlot := 101,
                 nextLeaderIdentity := "leader", nextLeaderRegion := "amsterdam" } = 1 :=
  slots_until_exact _ (by decide) (by norm_num [U64MOD])

/-- C6.  When the 5-second per-iteration timeout elapses with no stream
event, the loop body of `print_packet_stream` performs exactly one
leader-scheduler probe (`print_next_leader_info`, `main.rs:280`) and nothing
else — in particular no resubmission — and the loop continues with the
remaining events, its exit state unchanged; a trace of `n` consecutive
timeouts yields exactly `n` probe calls and leaves the loop still running
(non-terminal). -/
theorem timeout_single_probe_no_resubmit {P : Type}
    (decode : P → Option VersionedTransaction) (rest : List (StreamEvent P)) (n : Nat) :
    printPacketStream decode (StreamEvent.timeoutElapsed :: rest) =
      (Action.probeLeader :: (printPacketStream decode rest).1,
       (printPacketStream decode rest).2) ∧
    printPacketStream decode (List.replicate n StreamEvent.timeoutElapsed) =
      (List.replicate n Action.probeLeader, LoopExit.running) := by
  refine ⟨rfl, ?_⟩
  induction n with
  | zero => rfl
  | succ k ih => simp [List.replicate_succ, printPacketStream, ih]

/-- Helper: is this stream event one of the two break branches of
`print_packet_stream` (stream error or stream closure)? -/
def isStreamEnd {P : Type} : StreamEvent P → Bool
  | StreamEvent.streamError => true
  | StreamEvent.streamClosed => true
  | _ => false

/-- C7.  If the pending-transaction stream errors or closes mid-wait (the
first such event, after any number of notifications and timeouts), the loop
of `print_packet_stream` terminates right there: whatever events would follow
are never consumed (no silent retry), and the loop's exit state is the
distinct connection-lost exit for that branch (`streamError` resp.
`streamClosed`), not the still-running state — and the code has no failure
outcome these could be confused with. -/
theorem stream_loss_terminates_loop {P : Type}
    (decode : P → Option VersionedTransaction) (pre rest : List (StreamEvent P))
    (hpre : ∀ e ∈ pre, isStreamEnd e = false) :
    (printPacketStream decode (pre ++ StreamEvent.streamError :: rest) =
       printPacketStream decode (pre ++ [StreamEvent.streamError]) ∧
     (printPacketStream decode (pre ++ StreamEvent.streamError :: rest)).2 =
       LoopExit.streamError) ∧
    (printPacketStream decode (pre ++ StreamEvent.streamClosed :: rest) =
       printPacketStream decode (pre ++ [StreamEvent.streamClosed]) ∧
     (printPacketStream decode (pre ++ StreamEvent.streamClosed :: rest)).2 =
       LoopExit.streamClosed) ∧
    LoopExit.streamError ≠ LoopExit.running ∧
    LoopExit.streamClosed ≠ LoopExit.running := by
  refine ⟨?_, ?_, by decide, by decide⟩ <;>
  · induction pre with
    | nil => exact ⟨rfl, rfl⟩
    | cons e pre0 ih =>
        have he := hpre e (List.mem_cons_self e pre0)
        have ih0 := ih fun x hx => hpre x (List.mem_cons_of_mem _ hx)
        match e, he with
        | StreamEvent.notification packets, _ =>
            simp only [List.cons_append, printPacketStream, List.append_eq, ih0.1, ih0.2]
            exact ⟨trivial, ih0.1 ▸ ih0.2⟩
        | StreamEvent.timeoutElapsed, _ =>
            simp only [List.cons_append, printPacketStream, List.append_eq, ih0.1, ih0.2]
            exact ⟨trivial, ih0.1 ▸ ih0.2⟩

/-- C7 witness. -/
theorem stream_loss_terminates_loop_witness :
    (printPacketStream (fun _ : Nat => (none : Option VersionedTransaction))
        ([StreamEvent.timeoutElapsed] ++ StreamEvent.streamError :: [StreamEvent.streamClosed]) =
       printPacketStream (fun _ : Nat => (none : Option VersionedTransaction))
         ([StreamEvent.timeoutElapsed] ++ [StreamEvent.streamError]) ∧
     (printPacketStream (fun _ : Nat => (none : Option VersionedTransaction))
        ([StreamEvent.timeoutElapsed] ++ StreamEvent.streamError :: [StreamEvent.streamClosed])).2 =
       LoopExit.streamError) ∧
    (printPacketStream (fun _ : Nat => (none : Option VersionedTransaction))
        ([StreamEvent.timeoutElapsed] ++ StreamEvent.streamClosed :: [StreamEvent.streamClosed]) =
       printPacketStream (fun _ : Nat => (none : Option VersionedTransaction))
         ([StreamEvent.timeoutElapsed] ++ [StreamEvent.streamClosed]) ∧
     (printPacketStream (fun _ : Nat => (none : Option VersionedTransaction))
        ([StreamEvent.timeoutElapsed] ++ StreamEvent.streamClosed :: [StreamEvent.streamClosed])).2 =
       LoopExit.streamClosed) ∧
    LoopExit.streamError ≠ LoopExit.running ∧
    LoopExit.streamClosed ≠ LoopExit.running :=
  stream_loss_terminates_loop (fun _ : Nat => (none : Option VersionedTransaction))
    [StreamEvent.timeoutElapsed] [StreamEvent.streamClosed] (by decide)

/-- C8.  A pending-transaction notification surfaces exactly the packets that
decode successfully: the logged transactions are `filter_map` of the decoder
over the packets (`main.rs:262..269`), whose count equals the number of
successfully decoding packets; undecodable packets are silently dropped and
never break the loop (the exit state is unchanged).  In particular, a
notification with one decodable and one undecodable packet surfaces exactly
one transaction and leaves the loop running. -/
theorem decoded_packets_surfaced {P : Type}
    (decode : P → Option VersionedTransaction) (packets : List P)
    (rest : List (StreamEvent P)) :
    (printPacketStream decode (StreamEvent.notification packets :: rest)).1 =
      (packets.filterMap decode).map Action.logTx ++ (printPacketStream decode rest).1 ∧
    (printPacketStream decode (StreamEvent.notification packets :: rest)).2 =
      (printPacketStream decode rest).2 ∧
    (packets.filterMap decode).length =
      (packets.filter fun p => (decode p).isSome).length ∧
    printPacketStream (fun n : Nat => if n = 0 then some ⟨["sig0"]⟩ else none)
        [StreamEvent.notification [0, 1]] =
      ([Action.logTx ⟨["sig0"]⟩], LoopExit.running) := by
  refine ⟨rfl, rfl, ?_, by decide⟩
  induction packets with
  | nil => rfl
  | cons p ps ih =>
      cases hd : decode p <;>
        simp [List.filterMap_cons, List.filter_cons, hd, ih]

/-- C10.  The tip account is selected by unguarded indexing
`tip_accounts[0]` (`main.rs:177`): on a non-empty response the first entry is
used, and on an empty response the program aborts (out of bounds, modelled
`none`) instead of returning an error. -/
theorem tip_account_head_or_abort (accounts : List String) :
    (∀ h : accounts ≠ [], selectTipAccount accounts = some (accounts.head h)) ∧
    (accounts = [] → selectTipAccount accounts = none) := by
  constructor
  · intro h
    match accounts, h with
    | a :: rest, _ => simp [selectTipAccount]
  · intro h
    subst h
    rfl

/-- C10 witness. -/
theorem tip_account_head_or_abort_witness :
    selectTipAccount ["tipacct", "other"] = some "tipacct" ∧
    selectTipAccount ([] : List String) = none :=
  ⟨(tip_account_head_or_abort ["tipacct", "other"]).1 (by decide),
   (tip_account_head_or_abort []).2 rfl⟩

end SearcherClient
